import Mathlib

/-!
Verification development for the cardiovascular-respiratory digital-twin
simulation engine (`digital_twin_model.py`).

The model state is a 35-component vector of reals; we embed it as `List ℚ`
(indices match the Python state layout) for the rational-arithmetic parts of
the code, and use `ℝ` for the oxygen-saturation formula, which involves the
exponential function.  Externally supplied or transcendental sub-computations
(heart-chamber elastances from `calculate_elastances`, the respiratory muscle
pressure derivative from `input_function`, the baroreflex derivatives from
`baroreceptor_control`, the delayed chemoreceptor inputs, `np.exp`, the
`scipy` low-pass filter and the adaptive ODE solver) enter the embedding as
explicit oracle arguments; every claim below is quantified over them, so no
claim depends on their values beyond what the Python data flow provides.
-/

namespace DigitalTwin

/-- Indexing of a `numpy` vector: element `i`, defaulting to `0` out of
range (all embedded vectors have their source's fixed length, so the
default is never reached on the source's index set). -/
def elQ (l : List ℚ) (i : ℕ) : ℚ := l.getD i 0

/-! ### Hemodynamic parameters (cached from `master_parameters`) -/

/-- The parameters consumed by the cardiovascular pressure/flow formulas:
`self.elastance[0, :]` (row of minimal elastances), `self.uvolume`,
`self.resistance`, and the cached control set-points
(`cardio_control_params.HR_n`, `.R_n`, `.UV_n`). -/
structure HemoParams where
  E0 : List ℚ
  uv : List ℚ
  res : List ℚ
  HR_n : ℚ
  R_n : ℚ
  UV_n : ℚ

/-! ### Pressures (lines 614-624 of `extended_state_space_equations`, and
lines 456-467 of `compute_variables`, which have the same shape with
`Pmus = y[25]` in place of `mech[4] = x[14]` and a different `UV_c`). -/

/-- The ten compartment pressures.  `Pext` is the additive term (`mech[4]`
in the ODE right-hand side, `Pmus` in `compute_variables`); `era erv ela elv`
are the time-varying chamber elastances delivered by `get_inputs`. -/
def pressures (E0 uv : List ℚ) (era erv ela elv UV_c : ℚ) (V : List ℚ)
    (Pext : ℚ) : List ℚ :=
  [elQ E0 0 * (elQ V 0 - elQ uv 0) + Pext,
   elQ E0 1 * (elQ V 1 - elQ uv 1),
   elQ E0 2 * (elQ V 2 - elQ uv 2 * UV_c),
   elQ E0 3 * (elQ V 3 - elQ uv 3 * UV_c) + Pext,
   era * (elQ V 4 - elQ uv 4) + Pext,
   erv * (elQ V 5 - elQ uv 5) + Pext,
   elQ E0 6 * (elQ V 6 - elQ uv 6) + Pext,
   elQ E0 7 * (elQ V 7 - elQ uv 7) + Pext,
   ela * (elQ V 8 - elQ uv 8) + Pext,
   elv * (elQ V 9 - elQ uv 9) + Pext]

/-! ### Flows of the ODE right-hand side (lines 628-639) -/

/-- Body of the flow loop `for i in range(9)` in
`extended_state_space_equations`: `R_eff = resistance[i] * (R_c if i < 3
else 1)`; positive gradients flow through `R_eff`, non-positive gradients
flow through `10 * R_eff` at the valve junctions `i = 3, 7` and are clamped
to `0` everywhere else. -/
def flowBody (res : List ℚ) (R_c : ℚ) (P : List ℚ) (i : ℕ) : ℚ :=
  let Reff := elQ res i * (if i < 3 then R_c else 1)
  let dP := elQ P i - elQ P (i + 1)
  if 0 < dP then dP / Reff
  else if i = 3 ∨ i = 7 then dP / (10 * Reff) else 0

/-- The ten flows of the right-hand side: the loop over `i = 0..8` followed
by the closing flow `F[9]` from compartment 9 back to compartment 0. -/
def flowsODE (res : List ℚ) (R_c : ℚ) (P : List ℚ) : List ℚ :=
  (List.range 9).map (flowBody res R_c P) ++
    [if 0 < elQ P 9 - elQ P 0
     then (elQ P 9 - elQ P 0) / elQ res 9 else 0]

/-! ### Flows of `compute_variables` (lines 470-481) -/

/-- The flows computed by `compute_variables`: junctions 0-2 divide by
`resistance[i] * R_c` with no reversal handling, junction 6 divides by
`resistance[6]` with no reversal handling, junctions 3 and 7 are valves with
ten-fold reverse resistance, junctions 4, 5, 8, 9 clamp reverse flow to 0. -/
def flowsCV (res : List ℚ) (R_c : ℚ) (P : List ℚ) : List ℚ :=
  [(elQ P 0 - elQ P 1) / (elQ res 0 * R_c),
   (elQ P 1 - elQ P 2) / (elQ res 1 * R_c),
   (elQ P 2 - elQ P 3) / (elQ res 2 * R_c),
   if 0 < elQ P 3 - elQ P 4 then (elQ P 3 - elQ P 4) / elQ res 3
     else (elQ P 3 - elQ P 4) / (10 * elQ res 3),
   if 0 < elQ P 4 - elQ P 5 then (elQ P 4 - elQ P 5) / elQ res 4
     else 0,
   if 0 < elQ P 5 - elQ P 6 then (elQ P 5 - elQ P 6) / elQ res 5
     else 0,
   (elQ P 6 - elQ P 7) / elQ res 6,
   if 0 < elQ P 7 - elQ P 8 then (elQ P 7 - elQ P 8) / elQ res 7
     else (elQ P 7 - elQ P 8) / (10 * elQ res 7),
   if 0 < elQ P 8 - elQ P 9 then (elQ P 8 - elQ P 9) / elQ res 8
     else 0,
   if 0 < elQ P 9 - elQ P 0 then (elQ P 9 - elQ P 0) / elQ res 9
     else 0]

/-! ### Volume derivatives (lines 647-650) -/

/-- `dVdt[0] = F[9] - F[0]` and `dVdt[i] = F[i-1] - F[i]` for `i = 1..9`
(the loop unrolled). -/
def dVdtOf (F : List ℚ) : List ℚ :=
  [elQ F 9 - elQ F 0,
   elQ F 0 - elQ F 1,
   elQ F 1 - elQ F 2,
   elQ F 2 - elQ F 3,
   elQ F 3 - elQ F 4,
   elQ F 4 - elQ F 5,
   elQ F 5 - elQ F 6,
   elQ F 6 - elQ F 7,
   elQ F 7 - elQ F 8,
   elQ F 8 - elQ F 9]

/-! ### Remaining cached parameter groups -/

/-- Respiratory-mechanics constants (`respi_constants.*`) used to build
`A_mechanical` and `B_mechanical` in `_initialize_mechanical_system`. -/
structure RespParams where
  C_l : ℚ
  C_tr : ℚ
  C_b : ℚ
  C_A : ℚ
  R_lt : ℚ
  R_tb : ℚ
  R_bA : ℚ

/-- Gas-exchange and mode parameters cached by `_cache_ode_parameters`. -/
structure GasParams where
  FI_O2 : ℚ
  FI_CO2 : ℚ
  CO_nom : ℚ
  shunt : ℚ
  MV_mode : ℚ
  K_CO2 : ℚ
  k_CO2 : ℚ
  K_O2 : ℚ
  k_O2 : ℚ
  V_D : ℚ
  V_A : ℚ
  M_S_CO2 : ℚ
  D_S_CO2 : ℚ
  V_Stis_CO2 : ℚ
  V_Scap_CO2 : ℚ
  M_S_O2 : ℚ
  D_S_O2 : ℚ
  V_Stis_O2 : ℚ
  V_Scap_O2 : ℚ

/-- Chemoreceptor parameters cached by `_cache_chemoreceptor_parameters`. -/
structure ChemoParams where
  tau_CO2 : ℚ
  G_CO2 : ℚ
  p_CO2_set : ℚ
  tau_O2 : ℚ
  G_O2 : ℚ
  p_O2_threshold : ℚ

/-- Oracle inputs of one right-hand-side evaluation: values produced by the
transcendental or stateful sub-computations that feed
`extended_state_space_equations`.  `ela elv era erv` come from
`calculate_elastances` (half-sine activation), `Pmus_dt` from
`input_function` (exponential expiratory decay), `P_ao` from
`ventilator_pressure`, the four `d*` fields from `baroreceptor_control`
(sigmoid/log maps over delayed firing rates), `pCO2d`/`pO2d` are the heads of
the chemoreceptor delay buffers, `expc` models `np.exp` in the arterial O2
content formula, and `use_reflex` is the runtime's reflex-enable flag. -/
structure OdeOracles where
  ela : ℚ
  elv : ℚ
  era : ℚ
  erv : ℚ
  Pmus_dt : ℚ
  P_ao : ℚ
  dPbarodt : ℚ
  ddHRv : ℚ
  ddHRs : ℚ
  ddRs : ℚ
  pCO2d : ℚ
  pO2d : ℚ
  expc : ℚ → ℚ
  use_reflex : Bool

/-! ### Lung mechanics (`_initialize_mechanical_system`, lines 296-324) -/

/-- `C_cw = 0.2445`. -/
def C_cw : ℚ := 2445 / 10000

/-- `R_ml = 1.021 * 1.5`, the constant appearing in `A_mechanical[0][0]`
and in `Vdot_l`. -/
def R_ml : ℚ := 1021 / 1000 * (3 / 2)

/-- The `A_mechanical` matrix. -/
def A_mechanical (rp : RespParams) : List (List ℚ) :=
  [[-1 / (rp.C_l * R_ml) - 1 / (rp.R_lt * rp.C_l), 1 / (rp.R_lt * rp.C_l),
    0, 0, 0],
   [1 / (rp.R_lt * rp.C_tr),
    -1 / (rp.C_tr * rp.R_lt) - 1 / (rp.R_tb * rp.C_tr),
    1 / (rp.R_tb * rp.C_tr), 0, 0],
   [0, 1 / (rp.R_tb * rp.C_b),
    -1 / (rp.C_b * rp.R_tb) - 1 / (rp.R_bA * rp.C_b),
    1 / (rp.R_bA * rp.C_b), 0],
   [0, 0, 1 / (rp.R_bA * rp.C_A), -1 / (rp.C_A * rp.R_bA), 0],
   [1 / (rp.R_lt * C_cw), -1 / (C_cw * rp.R_lt), 0, 0, 0]]

/-- The `B_mechanical` matrix. -/
def B_mechanical (rp : RespParams) : List (List ℚ) :=
  [[1 / (R_ml * rp.C_l), 0, 0],
   [0, 1, 0],
   [0, 1, 0],
   [0, 1, 0],
   [0, 0, 1]]

/-- Dot product of a matrix row with a vector. -/
def dotQ (row v : List ℚ) : ℚ := (List.zipWith (· * ·) row v).sum

/-- Matrix-vector product (`numpy` `dot`). -/
def matVec (A : List (List ℚ)) (v : List ℚ) : List ℚ :=
  A.map (fun row => dotQ row v)

/-- Elementwise vector sum. -/
def vecAdd (a b : List ℚ) : List ℚ := List.zipWith (· + ·) a b

/-! ### Chemoreceptor control (lines 825-863) -/

/-- `chemoreceptor_control`, given the delayed partial pressures (the heads
of the delay buffers, supplied as arguments because the buffer push/pop is a
side effect on the model object). -/
def chemoreceptor_control (cp : ChemoParams) (pCO2d pO2d dRR_chemo dPmus_chemo : ℚ) :
    ℚ × ℚ :=
  let CO2_error := pCO2d - cp.p_CO2_set
  let RR_drive_CO2 := cp.G_CO2 * CO2_error * (1 / 2)
  let RR_drive_O2 :=
    if pO2d < cp.p_O2_threshold
    then cp.G_O2 * (cp.p_O2_threshold - pO2d) * (-1) * (3 / 10)
    else 0
  let total_RR_drive := RR_drive_CO2 + RR_drive_O2
  let total_Pmus_drive := RR_drive_CO2 * (1 / 5) + RR_drive_O2 * (1 / 10)
  ((total_RR_drive - dRR_chemo) / cp.tau_CO2,
   (total_Pmus_drive - dPmus_chemo) / cp.tau_O2)

/-! ### The ODE right-hand side `extended_state_space_equations`
(lines 535-762), split into its blocks. -/

/-- Pressures of the right-hand side: `UV_c = UV_n` (line 571) and the
pleural term is `mech[4] = x[14]`. -/
def rhsPressures (hp : HemoParams) (o : OdeOracles) (x : List ℚ) : List ℚ :=
  pressures hp.E0 hp.uv o.era o.erv o.ela o.elv hp.UV_n x (elQ x 14)

/-- Flows of the right-hand side: `R_c = 1` (line 570). -/
def rhsFlows (hp : HemoParams) (o : OdeOracles) (x : List ℚ) : List ℚ :=
  flowsODE hp.res 1 (rhsPressures hp o x)

/-- The lung-mechanics block (lines 667-673): `Ppl_dt` and
`A_mechanical @ mech + B_mechanical @ [P_ao, Ppl_dt, Pmus_dt]`. -/
def rhsMech (rp : RespParams) (P_ao Pmus_dt : ℚ) (x : List ℚ) : List ℚ :=
  let mech := x.drop 10 |>.take 5
  let Ppl_dt := elQ x 10 / (rp.R_lt * C_cw) - elQ x 11 / (C_cw * rp.R_lt)
    + Pmus_dt
  vecAdd (matVec (A_mechanical rp) mech)
    (matVec (B_mechanical rp) [P_ao, Ppl_dt, Pmus_dt])

/-- The tail of the packed derivative vector (lines 675-760): gas exchange,
tissue ODEs, and the literal layout of lines 749-759 — note the zeros at
relative positions 8, 9 (state 23, 24) and 11, 12, 13 (state 26, 27, 28). -/
def rhsTail (rp : RespParams) (gp : GasParams) (cp : ChemoParams) (o : OdeOracles)
    (P_ao Pmus_dt : ℚ) (x : List ℚ) : List ℚ :=
  let FD_O2 := elQ x 15
  let FD_CO2 := elQ x 16
  let p_a_CO2 := elQ x 17
  let p_a_O2_raw := elQ x 18
  let c_Stis_CO2 := elQ x 19
  let c_Scap_CO2 := elQ x 20
  let c_Stis_O2 := elQ x 21
  let c_Scap_O2 := elQ x 22
  let dRR_chemo := elQ x 33
  let dPmus_chemo := elQ x 34
  let Vdot_l := (P_ao - elQ x 10) / R_ml
  let Vdot_A := (elQ x 12 - elQ x 13) / rp.R_bA
  let p_D_CO2 := FD_CO2 * 713
  let p_D_O2 := FD_O2 * 713
  let FA_CO2 := p_a_CO2 / 713
  let FA_O2 := p_a_O2_raw / 713
  let c_a_CO2 := gp.K_CO2 * p_a_CO2 + gp.k_CO2
  let p_a_O2 := if 700 < p_a_O2_raw then 700 else p_a_O2_raw
  let c_a_O2 := gp.K_O2 * (1 - o.expc (-gp.k_O2 * p_a_O2)) ^ 2
  let c_v_CO2 := c_Scap_CO2
  let c_v_O2 := c_Scap_O2
  let dFD_O2_dt :=
    if (gp.MV_mode = 1 ∧ 6 * (735 / 1000) < P_ao) ∨ (gp.MV_mode = 0 ∧ elQ x 10 < 0)
    then Vdot_l * 1000 * (gp.FI_O2 - FD_O2) / (gp.V_D * 1000)
    else Vdot_A * 1000 * (FD_O2 - FA_O2) / (gp.V_D * 1000)
  let dFD_CO2_dt :=
    if (gp.MV_mode = 1 ∧ 6 * (735 / 1000) < P_ao) ∨ (gp.MV_mode = 0 ∧ elQ x 10 < 0)
    then Vdot_l * 1000 * (gp.FI_CO2 - FD_CO2) / (gp.V_D * 1000)
    else Vdot_A * 1000 * (FD_CO2 - FA_CO2) / (gp.V_D * 1000)
  let dp_a_CO2 :=
    if (gp.MV_mode = 1 ∧ 6 * (735 / 1000) < P_ao) ∨ (gp.MV_mode = 0 ∧ elQ x 10 < 0)
    then (863 * gp.CO_nom * (1 - gp.shunt) * (c_v_CO2 - c_a_CO2)
          + Vdot_A * 1000 * (p_D_CO2 - p_a_CO2)) / (gp.V_A * 1000)
    else 863 * gp.CO_nom * (1 - gp.shunt) * (c_v_CO2 - c_a_CO2) / (gp.V_A * 1000)
  let dp_a_O2 :=
    if (gp.MV_mode = 1 ∧ 6 * (735 / 1000) < P_ao) ∨ (gp.MV_mode = 0 ∧ elQ x 10 < 0)
    then (863 * gp.CO_nom * (1 - gp.shunt) * (c_v_O2 - c_a_O2)
          + Vdot_A * 1000 * (p_D_O2 - p_a_O2)) / (gp.V_A * 1000)
    else 863 * gp.CO_nom * (1 - gp.shunt) * (c_v_O2 - c_a_O2) / (gp.V_A * 1000)
  let dc_Stis_CO2 := (gp.M_S_CO2 - gp.D_S_CO2 * (c_Stis_CO2 - c_Scap_CO2)) / gp.V_Stis_CO2
  let dc_Scap_CO2 := (gp.CO_nom * (8 / 10) * (c_a_CO2 - c_Scap_CO2)
    + gp.D_S_CO2 * (c_Stis_CO2 - c_Scap_CO2)) / gp.V_Scap_CO2
  let dc_Stis_O2 := (gp.M_S_O2 - gp.D_S_O2 * (c_Stis_O2 - c_Scap_O2)) / gp.V_Stis_O2
  let dc_Scap_O2 := (gp.CO_nom * (8 / 10) * (c_a_O2 - c_Scap_O2)
    + gp.D_S_O2 * (c_Stis_O2 - c_Scap_O2)) / gp.V_Scap_O2
  let dPbarodt := if o.use_reflex then o.dPbarodt else 0
  let ddHRv := if o.use_reflex then o.ddHRv else 0
  let ddHRs := if o.use_reflex then o.ddHRs else 0
  let ddRs := if o.use_reflex then o.ddRs else 0
  let chems := if o.use_reflex
    then chemoreceptor_control cp o.pCO2d o.pO2d dRR_chemo dPmus_chemo
    else (0, 0)
  [dFD_O2_dt, dFD_CO2_dt, dp_a_CO2, dp_a_O2,
   dc_Stis_CO2, dc_Scap_CO2, dc_Stis_O2, dc_Scap_O2,
   0, 0,
   Pmus_dt,
   0, 0, 0,
   dPbarodt, ddHRv, ddHRs, ddRs,
   chems.1, chems.2]

/-- The full packed derivative vector of
`extended_state_space_equations`: `dVdt ++ dxdt_mech ++ [...]`
(lines 746-760).  `P_ao` and `Pmus_dt` follow the ventilator/spontaneous
branch of lines 597-609. -/
def extended_state_space_equations (hp : HemoParams) (rp : RespParams)
    (gp : GasParams) (cp : ChemoParams) (o : OdeOracles) (x : List ℚ) : List ℚ :=
  let P_ao := if gp.MV_mode = 0 then 0 else o.P_ao
  let Pmus_dt := if gp.MV_mode = 0 then o.Pmus_dt else 0
  dVdtOf (rhsFlows hp o x) ++ rhsMech rp P_ao Pmus_dt x
    ++ rhsTail rp gp cp o P_ao Pmus_dt x

/-! ### Observable heart rate (`compute_variables`, lines 483-484) -/

/-- `HR = cardio_control_params.HR_n - y[26]`. -/
def computeHR (HR_n : ℚ) (y : List ℚ) : ℚ := HR_n - elQ y 26

/-- Pressures of `compute_variables` (lines 456-467):
`UV_c = UV_n + y[28]` and the additive term is `Pmus = y[25]`. -/
def computeVariablesP (hp : HemoParams) (era erv ela elv : ℚ) (y : List ℚ) :
    List ℚ :=
  pressures hp.E0 hp.uv era erv ela elv (hp.UV_n + elQ y 28) y (elQ y 25)

/-- Flows of `compute_variables` (lines 470-481): `R_c = R_n - y[27]`. -/
def computeVariablesF (hp : HemoParams) (era erv ela elv : ℚ) (y : List ℚ) :
    List ℚ :=
  flowsCV hp.res (hp.R_n - elQ y 27) (computeVariablesP hp era erv ela elv y)

/-! ### Cardiac cycle timing (`update_heart_period`, `is_cycle_complete`,
`calculate_elastances` lines 383-437, and the timing side effects of
`extended_state_space_equations` lines 586-594). -/

/-- The mutable timing attributes of the model object. -/
structure TimingState where
  last_cycle_start : ℚ
  HR : ℚ
  HP : ℚ
  Tas : ℚ
  Tav : ℚ
  Tvs : ℚ

/-- `update_heart_period`: `HP = 60/HR`, `Tas = 0.03 + 0.09*HP`,
`Tav = 0.01`, `Tvs = 0.16 + 0.2*HP`. -/
def update_heart_period (s : TimingState) (HR : ℚ) : TimingState :=
  { s with
      HR := HR
      HP := 60 / HR
      Tas := 3 / 100 + 9 / 100 * (60 / HR)
      Tav := 1 / 100
      Tvs := 16 / 100 + 2 / 10 * (60 / HR) }

/-- `is_cycle_complete`: `(t - last_cycle_start) >= HP`. -/
def is_cycle_complete (s : TimingState) (t : ℚ) : Bool :=
  s.HP ≤ t - s.last_cycle_start

/-- The only mutation performed by `calculate_elastances` (lines 398-399):
advance `last_cycle_start` to `t` when the cycle is complete. -/
def calcElastancesTiming (s : TimingState) (t : ℚ) : TimingState :=
  if is_cycle_complete s t then { s with last_cycle_start := t } else s

/-- The timing side effects of one `extended_state_space_equations` call:
line 588-589 update the heart period from the (reflex-adjusted, capped)
heart rate `HRnew` only when the cycle is complete, line 594 stores `HRnew`
in `self.HR` unconditionally, and the later `get_inputs` call (line 613)
runs `calculate_elastances`. -/
def rhsTiming (s : TimingState) (t HRnew : ℚ) : TimingState :=
  let s1 := if is_cycle_complete s t then update_heart_period s HRnew else s
  calcElastancesTiming { s1 with HR := HRnew } t

/-! ### Pathology events (`processEvent`, lines 966-1111, and the event
loop of `start_simulation`, lines 881-883).

The pathology/spline collaborators (`self.pathologies.CalcParamPercent` and
`self.pathologies.splineFunctions`) are external, so they are passed as the
function arguments `pct` and `spl`.  The interval
`int(timedelta(**{unit: interval}).total_seconds())` is modeled by the
already-converted integer field `timeIntervalSec`.  `lastEmission` is
`Option ℚ`, with the Python falsy test `if lastEmission else 0` modeled as
`Option.getD 0`.  The special-case state-vector location
`"venous_compartiment_3"` writes `self.current_state[3]`, held in the
`state3` field of the context. -/

/-- One entry of an event's `parameters` list. -/
structure PChange where
  name : String
  ptype : String
  action : String
  value : ℚ
deriving DecidableEq

/-- A pathology event. -/
structure Event where
  eventType : String
  timeCategorical : String
  timeIntervalSec : ℤ
  lastEmission : Option ℚ
  eventCount : ℤ
  parameters : List PChange
deriving DecidableEq

/-- The parts of the model mutated by event processing:
`master_parameters` (as a name/value association list) and
`current_state[3]`. -/
structure Ctx where
  params : List (String × ℚ)
  state3 : ℚ
deriving DecidableEq

/-- Dictionary lookup in `master_parameters`. -/
def plookup (ps : List (String × ℚ)) (n : String) : Option ℚ :=
  (ps.find? (fun q => q.1 = n)).map (·.2)

/-- Dictionary update of `master_parameters[n]['value']`. -/
def pset (ps : List (String × ℚ)) (n : String) (v : ℚ) : List (String × ℚ) :=
  ps.map (fun q => if q.1 = n then (n, v) else q)

/-- One `paramChange` of the loop body of `processEvent`
(lines 991-1075); `none` is the `error = ...; break` path. -/
def applyChange (spl : String → ℚ → ℚ) (pct : ℚ → String → ℚ)
    (ctx : Ctx) (c : PChange) : Option Ctx :=
  match plookup ctx.params c.name with
  | some curr =>
    if c.ptype = "relative" then
      let currPercent := pct curr c.name
      if c.action = "decay" then
        some { ctx with params := pset ctx.params c.name (spl c.name (currPercent + c.value)) }
      else if c.action = "set" then
        some { ctx with params := pset ctx.params c.name (spl c.name c.value) }
      else none
    else if c.ptype = "absolute" then
      if c.action = "decay" then
        some { ctx with params := pset ctx.params c.name (curr + c.value) }
      else if c.action = "set" then
        some { ctx with params := pset ctx.params c.name c.value }
      else none
    else none
  | none =>
    if c.name = "venous_compartiment_3" then
      if c.ptype = "absolute" then
        if c.action = "decay" then some { ctx with state3 := ctx.state3 + c.value }
        else if c.action = "set" then some { ctx with state3 := c.value }
        else none
      else none
    else none

/-- The `for paramChange in eventContent['parameters']` loop: on the first
erroring change the loop breaks, keeping the changes already applied
(Python mutates `master_parameters` in place), and the `Bool` result
records whether the loop finished without error. -/
def applyChanges (spl : String → ℚ → ℚ) (pct : ℚ → String → ℚ)
    (ctx : Ctx) : List PChange → Ctx × Bool
  | [] => (ctx, true)
  | c :: rest =>
    match applyChange spl pct ctx c with
    | some ctx2 => applyChanges spl pct ctx2 rest
    | none => (ctx, false)

/-- The result of `processEvent`: the Python return value (`True`, `False`
or the fall-through `None`, as `Option Bool`), the mutated context, the
mutated event, and whether the parameter-change loop was reached. -/
structure PEResult where
  outcome : Option Bool
  ctx : Ctx
  event : Event
  applied : Bool
deriving DecidableEq

/-- `processEvent`.  For `common` events with `timeCategorical` equal to
`"continuous"` or `"limited"`, the time gate of lines 976-988 runs first;
other `common` events fall through to the change loop with `outcome`
still `None`.  An error in the change loop makes the function return
`False` (lines 1077-1079).  `special` events return `False`
(lines 1105-1109). -/
def processEvent (spl : String → ℚ → ℚ) (pct : ℚ → String → ℚ)
    (t : ℚ) (ctx : Ctx) (e : Event) : PEResult :=
  if e.eventType = "common" then
    if e.timeCategorical = "continuous" ∨ e.timeCategorical = "limited" then
      if t - e.lastEmission.getD 0 ≤ (e.timeIntervalSec : ℚ) then
        ⟨some true, ctx, e, false⟩
      else
        let e2 := { e with lastEmission := some t, eventCount := e.eventCount - 1 }
        let outcome : Option Bool := if e2.eventCount = 0 then some false else some true
        let r := applyChanges spl pct ctx e.parameters
        if r.2 then ⟨outcome, r.1, e2, true⟩ else ⟨some false, r.1, e2, true⟩
    else
      let r := applyChanges spl pct ctx e.parameters
      if r.2 then ⟨none, r.1, e, true⟩ else ⟨some false, r.1, e, true⟩
  else if e.eventType = "special" then ⟨some false, ctx, e, false⟩
  else ⟨none, ctx, e, false⟩

/-- One pass of the event loop of `start_simulation` (lines 881-883) over
the queue: each event is processed in order, and it stays in the queue only
when `processEvent` returned `True` (any falsy result removes it).  The
`ℕ` component counts the events whose change loop ran this step. -/
def stepEvents (spl : String → ℚ → ℚ) (pct : ℚ → String → ℚ)
    (t : ℚ) (ctx : Ctx) (q : List Event) : Ctx × List Event × ℕ :=
  q.foldl
    (fun acc e =>
      let r := processEvent spl pct t acc.1 e
      (r.ctx, acc.2.1 ++ (if r.outcome = some true then [r.event] else []),
        acc.2.2 + (if r.applied then 1 else 0)))
    (ctx, [], 0)

/-- Folding `stepEvents` over a list of step times, accumulating the number
of change-loop runs: the event-queue dynamics of the simulation loop. -/
def simEventStep (spl : String → ℚ → ℚ) (pct : ℚ → String → ℚ)
    (acc : Ctx × List Event × ℕ) (t : ℚ) : Ctx × List Event × ℕ :=
  let r := stepEvents spl pct t acc.1 acc.2.1
  (r.1, r.2.1, acc.2.2 + r.2.2)

/-- The event-queue dynamics over a whole run with step times `ts`. -/
def runSim (spl : String → ℚ → ℚ) (pct : ℚ → String → ℚ)
    (ts : List ℚ) (ctx : Ctx) (q : List Event) : Ctx × List Event × ℕ :=
  ts.foldl (simEventStep spl pct) (ctx, q, 0)

/-! ### The integration step of `start_simulation` (lines 875-897).

The body of the `while self.running` loop: the event queue is drained, then
`solve_ivp` integrates one `dt` window and its final column is assigned to
`self.current_state` unconditionally — there is no `try`/`except` around the
call, so a solver failure (modeled as the oracle returning `Except.error`)
leaves the loop body as that error.  The observable-variable and buffer
updates that follow a successful step are not needed by the claims below and
are elided. -/

/-- The loop-owned mutable data relevant to one step. -/
structure SimState where
  t : ℚ
  dt : ℚ
  state : List ℚ
  ctx : Ctx
  events : List Event
deriving DecidableEq

/-- One iteration of the `start_simulation` loop, with the adaptive solver
as an oracle `solver t state`.  A solver failure is returned as is: the
Python code has no exception handler here. -/
def simLoopBody (spl : String → ℚ → ℚ) (pct : ℚ → String → ℚ)
    (solver : ℚ → List ℚ → Except String (List ℚ))
    (st : SimState) : Except String SimState :=
  let es := stepEvents spl pct st.t st.ctx st.events
  match solver st.t st.state with
  | Except.error msg => Except.error msg
  | Except.ok s2 =>
    Except.ok { st with
                  state := s2
                  ctx := es.1
                  events := es.2.1
                  t := st.t + st.dt }

/-! ### The rolling arterial-pressure buffer (`_initialize_data_buffers`
line 333, `compute_filtered_map` lines 526-533, and the filtered-MAP
estimate of `start_simulation` lines 917-924). -/

/-- `deque(maxlen=w).append`: drop the oldest element once the buffer is
full. -/
def pushSample (w : ℕ) (buf : List ℚ) (x : ℚ) : List ℚ :=
  if buf.length < w then buf ++ [x] else buf.drop 1 ++ [x]

/-- `np.mean` of a buffer. -/
def meanQ (l : List ℚ) : ℚ := l.sum / (l.length : ℚ)

/-- `compute_filtered_map`: plain mean for fewer than 10 samples, otherwise
the zero-phase low-pass filter (`butter`/`filtfilt`, external `scipy`
code passed as the oracle `filt`). -/
def compute_filtered_map (filt : List ℚ → ℚ) (buf : List ℚ) : ℚ :=
  if buf.length < 10 then meanQ buf else filt buf

/-- `self.P_store = deque([0.0] * self.window_size, maxlen=self.window_size)`
 — the buffer starts already filled with `window_size` zeros. -/
def initPStore (w : ℕ) : List ℚ := List.replicate w 0

/-- The estimate of lines 917-924: the filtered value when the buffer
length equals `window_size`, the plain mean of the buffer when it is
shorter but non-empty, and the `ABP_n` fallback when it is empty
(the `None` branch). -/
def recentMAP (w : ℕ) (filt : List ℚ → ℚ) (ABP_n : ℚ) (buf : List ℚ) : ℚ :=
  if buf.length = w then compute_filtered_map filt buf
  else if 0 < buf.length then meanQ buf
  else ABP_n

/-- The buffer contents after the run has appended `samples` (one `P[0]`
per loop iteration, line 906). -/
def bufAfter (w : ℕ) (samples : List ℚ) : List ℚ :=
  samples.foldl (pushSample w) (initPStore w)

/-! ### Initial state (`initialize_state`, lines 347-381) and solver
updates (for the frozen-component invariant). -/

/-- The parameters read by `initialize_state`. -/
structure InitCond where
  TBV : ℚ
  uv : List ℚ
  FD_O2 : ℚ
  FD_CO2 : ℚ
  conFrac : ℚ
  p_a_CO2 : ℚ
  p_a_O2 : ℚ
  c_Stis_CO2 : ℚ
  c_Scap_CO2 : ℚ
  c_Stis_O2 : ℚ
  c_Scap_O2 : ℚ
  Delta_RR_c : ℚ
  Delta_Pmus_c : ℚ
  Pmus : ℚ
  Pset : ℚ

/-- `state[:10] = TBV * (uvolume / sum(uvolume))`. -/
def initVolumes (ic : InitCond) : List ℚ :=
  (List.range 10).map (fun i => ic.TBV * (elQ ic.uv i / ic.uv.sum))

/-- `initialize_state`: the full 35-component initial state; components
26, 27, 28 and 30-34 are the literal zeros of lines 372-380. -/
def initialize_state (ic : InitCond) : List ℚ :=
  initVolumes ic ++ List.replicate 5 0 ++
    [ic.FD_O2 / ic.conFrac, ic.FD_CO2 / ic.conFrac,
     ic.p_a_CO2, ic.p_a_O2,
     ic.c_Stis_CO2, ic.c_Scap_CO2, ic.c_Stis_O2, ic.c_Scap_O2,
     ic.Delta_RR_c, ic.Delta_Pmus_c,
     ic.Pmus,
     0, 0, 0,
     ic.Pset,
     0, 0, 0, 0, 0]

/-- One right-hand-side evaluation point inside a solver step: the
parameter caches and oracles in force at that evaluation, and the state the
solver evaluates at. -/
structure RhsEval where
  hp : HemoParams
  rp : RespParams
  gp : GasParams
  cp : ChemoParams
  o : OdeOracles
  x : List ℚ

/-- One solver update: the new state adds to the current state a weighted
combination of right-hand-side evaluations (this covers explicit and
linear-multistep corrector updates of the adaptive integrator; the weights
and evaluation points are arbitrary). -/
def solverCombo (step : List (ℚ × RhsEval)) (s : List ℚ) : List ℚ :=
  (List.range 35).map (fun i =>
    elQ s i +
      (step.map (fun c =>
        c.1 * elQ (extended_state_space_equations c.2.hp c.2.rp c.2.gp c.2.cp
          c.2.o c.2.x) i)).sum)

/-- The state after any sequence of solver updates. -/
def traj (s0 : List ℚ) (steps : List (List (ℚ × RhsEval))) : List ℚ :=
  steps.foldl (fun s st => solverCombo st s) s0

end DigitalTwin

/-! ### Oxygen saturation (`compute_variables`, lines 487-490).

`CaO2 = K_O2 * (1 - exp(-k_O2 * min(p_a_O2, 700)))**2 * 100` and
`Sa_O2 = round(((CaO2 - p_a_O2 * 0.003 / 100) / (Hgb * 1.34)) * 100)`.
The arterial pO2 is clamped at 700 mmHg inside the content term only; the
dissolved-oxygen correction `p_a_O2 * 0.003 / 100` uses the raw value.
`np.round` is modeled by Mathlib's `round` (they agree except at exact
half-integer ties, which the argument below never produces). -/

namespace DigitalTwin

/-- The arterial O2 content term (clamped at 700 mmHg). -/
noncomputable def CaO2 (K k p : ℝ) : ℝ :=
  K * (1 - Real.exp (-k * min p 700)) ^ 2 * 100

/-- The rounded oxygen saturation returned by `compute_variables`. -/
noncomputable def SaO2calc (K k Hgb p : ℝ) : ℤ :=
  round (((CaO2 K k p - p * 0.003 / 100) / (Hgb * 1.34)) * 100)

/-! ### Claim-level predicates and concrete fixtures -/

/-- The flow-reversal claim, evaluated at one pressure/resistance input:
there are exactly two non-valve junctions clamping reverse flow to zero,
and every junction other than the valves and those two passes
`gradient / R_nominal` (for the right-hand side, junction `i < 3` has
nominal resistance `resistance[i] * R_c`). -/
def claimC3At (res : List ℚ) (R_c : ℚ) (P : List ℚ) : Prop :=
  ∃ a b : Fin 10, a ≠ b ∧ a.val ∉ ([3, 7] : List ℕ) ∧ b.val ∉ ([3, 7] : List ℕ) ∧
    ∀ j : Fin 10, j.val ∉ ([3, 7, a.val, b.val] : List ℕ) →
      elQ (flowsODE res R_c P) j.val =
        (elQ P j.val - elQ P (if j.val = 9 then 0 else j.val + 1)) /
          (elQ res j.val * (if j.val < 3 then R_c else 1))

/-- The dependence claim of C4: some pair of states differing only in the
baroreflex resistance-offset component `x[32]` or the unstressed-volume
offset component `x[28]` gives different right-hand-side pressures or
flows. -/
def claimC4 : Prop :=
  ∃ (hp : HemoParams) (o : OdeOracles) (x x2 : List ℚ),
    (∀ i, i < 35 → i ≠ 28 → i ≠ 32 → elQ x i = elQ x2 i) ∧
    (rhsPressures hp o x ≠ rhsPressures hp o x2 ∨
      rhsFlows hp o x ≠ rhsFlows hp o x2)

/-- Unit-valued hemodynamic parameters used in concrete instances. -/
def hpUnit : HemoParams :=
  ⟨List.replicate 10 1, List.replicate 10 1, List.replicate 10 1, 70, 1, 1⟩

/-- A state with 2 mL in compartment 0 and zeros elsewhere. -/
def yBase : List ℚ := 2 :: List.replicate 34 0

/-- `yBase` with the unstressed-volume offset `y[28]` set to `1`. -/
def yBase28 : List ℚ :=
  2 :: (List.replicate 27 0 ++ [1] ++ List.replicate 6 0)

/-- `yBase` with the resistance offset `y[27]` set to `1/2`. -/
def yBase27 : List ℚ :=
  2 :: (List.replicate 26 0 ++ [1/2] ++ List.replicate 7 0)

/-- `yBase` with the baroreflex resistance-effect state `y[32]` set
to `7`. -/
def yBase32 : List ℚ :=
  2 :: (List.replicate 31 0 ++ [7] ++ List.replicate 2 0)

/-- A concrete oracle bundle for witnesses. -/
def oUnit : OdeOracles :=
  ⟨1, 1, 1, 1, 0, 0, 0, 0, 0, 0, 40, 100, id, true⟩

/-- A `common`/`limited` event with `eventCount = 1` and no prior
emission. -/
def limitedOnceEvent (I : ℤ) (cs : List PChange) : Event :=
  ⟨"common", "limited", I, none, 1, cs⟩

/-- A concrete spline collaborator (identity in the percent argument). -/
def splId : String → ℚ → ℚ := fun _ v => v

/-- A concrete percent collaborator (identity in the value argument). -/
def pctId : ℚ → String → ℚ := fun v _ => v

/-- A concrete context: two known parameters, `current_state[3] = 0`. -/
def ctxAB : Ctx := ⟨[("a", 1), ("b", 2)], 0⟩

/-- A `common` event whose first change names an unknown parameter `"zzz"`
and whose second change sets the known parameter `"b"`. -/
def evC9 : Event :=
  ⟨"common", "once", 0, none, 1,
   [⟨"zzz", "absolute", "set", 5⟩, ⟨"b", "absolute", "set", 9⟩]⟩

/-- A concrete simulation state for the integration-step claims. -/
def st0 : SimState := ⟨0, 1/50, [], ⟨[], 0⟩, []⟩

/-! ## Theorems -/

@[simp] theorem elQ_nil (i : ℕ) : elQ [] i = 0 := by
  cases i <;> rfl

@[simp] theorem elQ_cons_zero (a : ℚ) (l : List ℚ) : elQ (a :: l) 0 = a := rfl

@[simp] theorem elQ_cons_succ (a : ℚ) (l : List ℚ) (n : ℕ) :
    elQ (a :: l) (n + 1) = elQ l n := rfl

theorem elQ_append (a b : List ℚ) (i : ℕ) (h : i < a.length) :
    elQ (a ++ b) i = elQ a i := List.getD_append a b 0 i h

theorem elQ_append_right (a b : List ℚ) (i : ℕ) (h : a.length ≤ i) :
    elQ (a ++ b) i = elQ b (i - a.length) := List.getD_append_right a b 0 i h

theorem elQ_range_map (f : ℕ → ℚ) (n i : ℕ) (h : i < n) :
    elQ ((List.range n).map f) i = f i := by
  unfold elQ
  rw [List.getD_eq_getElem _ _ (by simpa using h)]
  simp

theorem dVdtOf_length (F : List ℚ) : (dVdtOf F).length = 10 := rfl

theorem rhsMech_length (rp : RespParams) (P_ao Pmus_dt : ℚ) (x : List ℚ) :
    (rhsMech rp P_ao Pmus_dt x).length = 5 := rfl

/-- The telescoping identity for the unrolled `dVdt` loop. -/
theorem dVdtOf_sum (F : List ℚ) :
    ∑ i ∈ Finset.range 10, elQ (dVdtOf F) i = 0 := by
  simp [dVdtOf, Finset.sum_range_succ]

/-- The first ten components of the packed derivative vector are the
volume derivatives. -/
theorem rhs_getD_of_lt10 (hp : HemoParams) (rp : RespParams) (gp : GasParams)
    (cp : ChemoParams) (o : OdeOracles) (x : List ℚ) (i : ℕ) (h : i < 10) :
    elQ (extended_state_space_equations hp rp gp cp o x) i
      = elQ (dVdtOf (rhsFlows hp o x)) i := by
  simp only [extended_state_space_equations]
  rw [elQ_append _ _ _ (by
        rw [List.length_append, dVdtOf_length, rhsMech_length]; omega),
    elQ_append _ _ _ (by rw [dVdtOf_length]; exact h)]

/-- C1: for every state vector and every evaluation context, the ten
compartment volume derivatives returned by `extended_state_space_equations`
sum exactly to zero (`dVdt[0] = F[9] - F[0]` and `dVdt[i] = F[i-1] - F[i]`
telescope), so the right-hand side conserves total blood volume. -/
theorem C1_volume_derivative_sum_zero (hp : HemoParams) (rp : RespParams)
    (gp : GasParams) (cp : ChemoParams) (o : OdeOracles) (x : List ℚ) :
    ∑ i ∈ Finset.range 10,
      elQ (extended_state_space_equations hp rp gp cp o x) i = 0 := by
  rw [Finset.sum_congr rfl
    (fun i hi => rhs_getD_of_lt10 hp rp gp cp o x i (Finset.mem_range.mp hi))]
  exact dVdtOf_sum _

/-- C5: within an ongoing cardiac cycle (`t - last_cycle_start < HP`),
`calculate_elastances` is a no-op on the timing state, and the timing side
effects of `extended_state_space_equations` leave `last_cycle_start`, `HP`,
`Tas`, `Tav` and `Tvs` unchanged for every candidate new heart rate: a
heart-rate change only takes effect at the next cycle boundary. -/
theorem C5_heart_period_frozen_within_cycle (s : TimingState) (t HRnew : ℚ)
    (h : t - s.last_cycle_start < s.HP) :
    calcElastancesTiming s t = s ∧
    (rhsTiming s t HRnew).last_cycle_start = s.last_cycle_start ∧
    (rhsTiming s t HRnew).HP = s.HP ∧
    (rhsTiming s t HRnew).Tas = s.Tas ∧
    (rhsTiming s t HRnew).Tav = s.Tav ∧
    (rhsTiming s t HRnew).Tvs = s.Tvs := by
  have hb : is_cycle_complete s t = false := by
    simp only [is_cycle_complete, decide_eq_false_iff_not, not_le]
    linarith
  have hb2 : is_cycle_complete { s with HR := HRnew } t = false := hb
  refine ⟨?_, ?_, ?_, ?_, ?_, ?_⟩ <;>
    simp [rhsTiming, calcElastancesTiming, hb, hb2]

/-- Witness for C5 at a concrete timing state mid-cycle. -/
theorem C5_heart_period_frozen_witness :
    calcElastancesTiming ⟨0, 60, 1, 2, 3, 4⟩ (1/2) = ⟨0, 60, 1, 2, 3, 4⟩ ∧
    (rhsTiming ⟨0, 60, 1, 2, 3, 4⟩ (1/2) 80).last_cycle_start = 0 ∧
    (rhsTiming ⟨0, 60, 1, 2, 3, 4⟩ (1/2) 80).HP = 1 ∧
    (rhsTiming ⟨0, 60, 1, 2, 3, 4⟩ (1/2) 80).Tas = 2 ∧
    (rhsTiming ⟨0, 60, 1, 2, 3, 4⟩ (1/2) 80).Tav = 3 ∧
    (rhsTiming ⟨0, 60, 1, 2, 3, 4⟩ (1/2) 80).Tvs = 4 :=
  C5_heart_period_frozen_within_cycle ⟨0, 60, 1, 2, 3, 4⟩ (1/2) 80 (by norm_num)

theorem flowsODE_getD_lt (res : List ℚ) (R_c : ℚ) (P : List ℚ) (i : ℕ)
    (h : i < 9) :
    elQ (flowsODE res R_c P) i = flowBody res R_c P i := by
  unfold flowsODE
  rw [elQ_append _ _ _ (by simpa using h), elQ_range_map _ _ _ h]

theorem flowsODE_getD_nine (res : List ℚ) (R_c : ℚ) (P : List ℚ) :
    elQ (flowsODE res R_c P) 9 =
      if 0 < elQ P 9 - elQ P 0
      then (elQ P 9 - elQ P 0) / elQ res 9 else 0 := by
  unfold flowsODE
  rw [elQ_append_right _ _ _ (by simp)]
  simp

/-- C3 counterexample: at the concrete pressures `[0,1,…,9]` (every forward
gradient negative except the closing junction) with unit resistances, every
junction outside the two valves clamps its reverse flow to zero, so no
choice of "exactly two further junctions" can make the remaining junctions
pass `gradient / R_nominal`: the claim fails at this input. -/
theorem C3_counterexample :
    claimC3At [1, 1, 1, 1, 1, 1, 1, 1, 1, 1] 1 [0, 1, 2, 3, 4, 5, 6, 7, 8, 9]
      = False := by
  refine eq_false ?_
  rintro ⟨a, b, hab, ha, hb, hall⟩
  have hval : ∀ jv : ℕ, jv < 3 → jv ≠ a.val → jv ≠ b.val → False := by
    intro jv hj hja hjb
    have hmem : jv ∉ ([3, 7, a.val, b.val] : List ℕ) := by
      simp only [List.mem_cons, List.not_mem_nil, or_false]
      push_neg
      exact ⟨by omega, by omega, hja, hjb⟩
    have heq := hall ⟨jv, by omega⟩ hmem
    interval_cases jv
    · rw [flowsODE_getD_lt _ _ _ 0 (by norm_num)] at heq
      norm_num [flowBody] at heq
    · rw [flowsODE_getD_lt _ _ _ 1 (by norm_num)] at heq
      norm_num [flowBody] at heq
    · rw [flowsODE_getD_lt _ _ _ 2 (by norm_num)] at heq
      norm_num [flowBody] at heq
  have hpick : (0 ≠ a.val ∧ 0 ≠ b.val) ∨ (1 ≠ a.val ∧ 1 ≠ b.val) ∨
      (2 ≠ a.val ∧ 2 ≠ b.val) := by omega
  rcases hpick with ⟨h1, h2⟩ | ⟨h1, h2⟩ | ⟨h1, h2⟩
  · exact hval 0 (by norm_num) h1 h2
  · exact hval 1 (by norm_num) h1 h2
  · exact hval 2 (by norm_num) h1 h2

/-- C3 as the code actually behaves: valves 3 and 7 use the nominal
resistance forward and ten-fold resistance on reverse; every one of the
eight remaining junctions (0, 1, 2 with nominal resistance
`resistance[i] * R_c`, and 4, 5, 6, 8, 9) clamps reverse flow to zero. -/
theorem C3_flow_reversal_actual (res : List ℚ) (R_c : ℚ) (P : List ℚ) :
    (∀ i : ℕ, (i = 3 ∨ i = 7) →
      (0 < elQ P i - elQ P (i + 1) →
        elQ (flowsODE res R_c P) i =
          (elQ P i - elQ P (i + 1)) / elQ res i) ∧
      (elQ P i - elQ P (i + 1) ≤ 0 →
        elQ (flowsODE res R_c P) i =
          (elQ P i - elQ P (i + 1)) / (10 * elQ res i))) ∧
    (∀ i : ℕ, i < 3 →
      (0 < elQ P i - elQ P (i + 1) →
        elQ (flowsODE res R_c P) i =
          (elQ P i - elQ P (i + 1)) / (elQ res i * R_c)) ∧
      (elQ P i - elQ P (i + 1) ≤ 0 →
        elQ (flowsODE res R_c P) i = 0)) ∧
    (∀ i : ℕ, (i = 4 ∨ i = 5 ∨ i = 6 ∨ i = 8) →
      (0 < elQ P i - elQ P (i + 1) →
        elQ (flowsODE res R_c P) i =
          (elQ P i - elQ P (i + 1)) / elQ res i) ∧
      (elQ P i - elQ P (i + 1) ≤ 0 →
        elQ (flowsODE res R_c P) i = 0)) ∧
    ((0 < elQ P 9 - elQ P 0 →
        elQ (flowsODE res R_c P) 9 = (elQ P 9 - elQ P 0) / elQ res 9) ∧
      (elQ P 9 - elQ P 0 ≤ 0 → elQ (flowsODE res R_c P) 9 = 0)) := by
  refine ⟨?_, ?_, ?_, ?_⟩
  · rintro i (rfl | rfl) <;> refine ⟨fun h1 => ?_, fun h2 => ?_⟩
    · rw [flowsODE_getD_lt _ _ _ 3 (by norm_num)]
      simp [flowBody, h1]
    · have h3 : ¬ (0 < elQ P 3 - elQ P (3 + 1)) := not_lt.mpr h2
      rw [flowsODE_getD_lt _ _ _ 3 (by norm_num)]
      simp [flowBody, h3]
    · rw [flowsODE_getD_lt _ _ _ 7 (by norm_num)]
      simp [flowBody, h1]
    · have h3 : ¬ (0 < elQ P 7 - elQ P (7 + 1)) := not_lt.mpr h2
      rw [flowsODE_getD_lt _ _ _ 7 (by norm_num)]
      simp [flowBody, h3]
  · intro i hi
    have h9 : i < 9 := by omega
    have hv : ¬ (i = 3 ∨ i = 7) := by omega
    refine ⟨fun h1 => ?_, fun h2 => ?_⟩
    · rw [flowsODE_getD_lt _ _ _ i h9]
      simp [flowBody, hi, h1]
    · have h3 : ¬ (0 < elQ P i - elQ P (i + 1)) := not_lt.mpr h2
      rw [flowsODE_getD_lt _ _ _ i h9]
      simp [flowBody, hi, h3, hv]
  · rintro i (rfl | rfl | rfl | rfl) <;> refine ⟨fun h1 => ?_, fun h2 => ?_⟩
    · rw [flowsODE_getD_lt _ _ _ 4 (by norm_num)]
      simp [flowBody, h1]
    · rw [flowsODE_getD_lt _ _ _ 4 (by norm_num)]
      simp [flowBody, not_lt.mpr h2]
    · rw [flowsODE_getD_lt _ _ _ 5 (by norm_num)]
      simp [flowBody, h1]
    · rw [flowsODE_getD_lt _ _ _ 5 (by norm_num)]
      simp [flowBody, not_lt.mpr h2]
    · rw [flowsODE_getD_lt _ _ _ 6 (by norm_num)]
      simp [flowBody, h1]
    · rw [flowsODE_getD_lt _ _ _ 6 (by norm_num)]
      simp [flowBody, not_lt.mpr h2]
    · rw [flowsODE_getD_lt _ _ _ 8 (by norm_num)]
      simp [flowBody, h1]
    · rw [flowsODE_getD_lt _ _ _ 8 (by norm_num)]
      simp [flowBody, not_lt.mpr h2]
  · refine ⟨fun h1 => ?_, fun h2 => ?_⟩
    · simp [flowsODE_getD_nine, h1]
    · have h3 : ¬ (0 < elQ P 9 - elQ P 0) := not_lt.mpr h2
      simp [flowsODE_getD_nine, h3]

/-- Witness for C3: the valve at junction 3 passes `-1/10` on its reverse
gradient while junctions 0 and 4 clamp to zero and the closing junction 9
passes its positive gradient. -/
theorem C3_flow_reversal_actual_witness :
    elQ (flowsODE [1, 1, 1, 1, 1, 1, 1, 1, 1, 1] 1 [0, 1, 2, 3, 4, 5, 6, 7, 8, 9]) 3
        = -(1 / 10) ∧
    elQ (flowsODE [1, 1, 1, 1, 1, 1, 1, 1, 1, 1] 1 [0, 1, 2, 3, 4, 5, 6, 7, 8, 9]) 0
        = 0 ∧
    elQ (flowsODE [1, 1, 1, 1, 1, 1, 1, 1, 1, 1] 1 [0, 1, 2, 3, 4, 5, 6, 7, 8, 9]) 4
        = 0 ∧
    elQ (flowsODE [1, 1, 1, 1, 1, 1, 1, 1, 1, 1] 1 [0, 1, 2, 3, 4, 5, 6, 7, 8, 9]) 9
        = 9 := by
  have h := C3_flow_reversal_actual [1, 1, 1, 1, 1, 1, 1, 1, 1, 1] 1
    [0, 1, 2, 3, 4, 5, 6, 7, 8, 9]
  refine ⟨?_, ?_, ?_, ?_⟩
  · rw [(h.1 3 (Or.inl rfl)).2 (by norm_num)]
    norm_num
  · have := (h.2.1 0 (by norm_num)).2 (by norm_num)
    exact this
  · have := (h.2.2.1 4 (Or.inl rfl)).2 (by norm_num)
    exact this
  · rw [h.2.2.2.1 (by norm_num)]
    norm_num

@[simp] theorem elQ_replicate_zero (n i : ℕ) : elQ (List.replicate n 0) i = 0 := by
  unfold elQ
  rcases lt_or_le i n with h | h
  · rw [List.getD_eq_getElem _ _ (by simpa using h)]
    simp
  · rw [List.getD_eq_default _ _ (by simpa using h)]

@[simp] theorem elQ_replicate (n : ℕ) (c : ℚ) (i : ℕ) (h : i < n) :
    elQ (List.replicate n c) i = c := by
  unfold elQ
  rw [List.getD_eq_getElem _ _ (by simpa using h)]
  simp

@[simp] theorem elQ_append_replicate_zero_lt (n : ℕ) (l : List ℚ) (i : ℕ)
    (h : i < n) : elQ (List.replicate n 0 ++ l) i = 0 := by
  rw [elQ_append _ _ _ (by simpa using h)]
  simp

@[simp] theorem elQ_append_replicate_zero_ge (n : ℕ) (l : List ℚ) (i : ℕ)
    (h : n ≤ i) : elQ (List.replicate n 0 ++ l) i = elQ l (i - n) := by
  rw [elQ_append_right _ _ _ (by simpa using h)]
  simp

/-- C4 counterexample: in `extended_state_space_equations` the effective
resistance is hardcoded (`R_c = 1`, line 570) and the effective unstressed
volume is the set-point alone (`UV_c = UV_n`, line 571), so no pair of
states differing only in `x[28]` or `x[32]` changes the computed pressures
or flows — the claimed dependence does not exist in the right-hand side. -/
theorem C4_counterexample : claimC4 = False := by
  refine eq_false ?_
  rintro ⟨hp, o, x, x2, hag, hne⟩
  have h0 := hag 0 (by norm_num) (by norm_num) (by norm_num)
  have h1 := hag 1 (by norm_num) (by norm_num) (by norm_num)
  have h2 := hag 2 (by norm_num) (by norm_num) (by norm_num)
  have h3 := hag 3 (by norm_num) (by norm_num) (by norm_num)
  have h4 := hag 4 (by norm_num) (by norm_num) (by norm_num)
  have h5 := hag 5 (by norm_num) (by norm_num) (by norm_num)
  have h6 := hag 6 (by norm_num) (by norm_num) (by norm_num)
  have h7 := hag 7 (by norm_num) (by norm_num) (by norm_num)
  have h8 := hag 8 (by norm_num) (by norm_num) (by norm_num)
  have h9 := hag 9 (by norm_num) (by norm_num) (by norm_num)
  have h14 := hag 14 (by norm_num) (by norm_num) (by norm_num)
  have hP : rhsPressures hp o x = rhsPressures hp o x2 := by
    simp only [rhsPressures, pressures, h0, h1, h2, h3, h4, h5, h6, h7, h8,
      h9, h14]
  rcases hne with hne | hne
  · exact hne hP
  · refine hne ?_
    simp only [rhsFlows, hP]

/-- C4 as the code actually behaves: the right-hand-side pressures and flows
are invariant under any change of `x[28]` and `x[32]`; the modulation the
spec describes lives only in `compute_variables`, whose pressures depend on
`y[28]` (via `UV_c = UV_n + y[28]`) and whose flows depend on `y[27]` (via
`R_c = R_n - y[27]`). -/
theorem C4_modulation_actual (hp : HemoParams) (o : OdeOracles)
    (x x2 : List ℚ)
    (hag : ∀ i, i < 35 → i ≠ 28 → i ≠ 32 → elQ x i = elQ x2 i) :
    (rhsPressures hp o x = rhsPressures hp o x2 ∧
      rhsFlows hp o x = rhsFlows hp o x2) ∧
    elQ (computeVariablesP hpUnit 1 1 1 1 yBase) 2 ≠
      elQ (computeVariablesP hpUnit 1 1 1 1 yBase28) 2 ∧
    elQ (computeVariablesF hpUnit 1 1 1 1 yBase) 0 ≠
      elQ (computeVariablesF hpUnit 1 1 1 1 yBase27) 0 := by
  refine ⟨?_, ?_, ?_⟩
  · have h0 := hag 0 (by norm_num) (by norm_num) (by norm_num)
    have h1 := hag 1 (by norm_num) (by norm_num) (by norm_num)
    have h2 := hag 2 (by norm_num) (by norm_num) (by norm_num)
    have h3 := hag 3 (by norm_num) (by norm_num) (by norm_num)
    have h4 := hag 4 (by norm_num) (by norm_num) (by norm_num)
    have h5 := hag 5 (by norm_num) (by norm_num) (by norm_num)
    have h6 := hag 6 (by norm_num) (by norm_num) (by norm_num)
    have h7 := hag 7 (by norm_num) (by norm_num) (by norm_num)
    have h8 := hag 8 (by norm_num) (by norm_num) (by norm_num)
    have h9 := hag 9 (by norm_num) (by norm_num) (by norm_num)
    have h14 := hag 14 (by norm_num) (by norm_num) (by norm_num)
    have hP : rhsPressures hp o x = rhsPressures hp o x2 := by
      simp only [rhsPressures, pressures, h0, h1, h2, h3, h4, h5, h6, h7, h8,
        h9, h14]
    exact ⟨hP, by simp only [rhsFlows, hP]⟩
  · norm_num [computeVariablesP, pressures, hpUnit, yBase, yBase28]
  · norm_num [computeVariablesF, computeVariablesP, flowsCV, pressures,
      hpUnit, yBase, yBase27]

/-- Witness for C4: the concrete pair `yBase`/`yBase32` differs only at
`x[32]` and produces identical right-hand-side pressures and flows, while
the `compute_variables` outputs at the concrete offset states differ. -/
theorem C4_modulation_actual_witness :
    (rhsPressures hpUnit oUnit yBase = rhsPressures hpUnit oUnit yBase32 ∧
      rhsFlows hpUnit oUnit yBase = rhsFlows hpUnit oUnit yBase32) ∧
    elQ (computeVariablesP hpUnit 1 1 1 1 yBase) 2 ≠
      elQ (computeVariablesP hpUnit 1 1 1 1 yBase28) 2 ∧
    elQ (computeVariablesF hpUnit 1 1 1 1 yBase) 0 ≠
      elQ (computeVariablesF hpUnit 1 1 1 1 yBase27) 0 :=
  C4_modulation_actual hpUnit oUnit yBase yBase32 (by
    intro i hi hA hB
    interval_cases i <;>
      first
      | rfl
      | exact absurd rfl hA
      | exact absurd rfl hB)

theorem rhs_frozen_slots (hp : HemoParams) (rp : RespParams) (gp : GasParams)
    (cp : ChemoParams) (o : OdeOracles) (x : List ℚ) :
    elQ (extended_state_space_equations hp rp gp cp o x) 23 = 0 ∧
    elQ (extended_state_space_equations hp rp gp cp o x) 24 = 0 ∧
    elQ (extended_state_space_equations hp rp gp cp o x) 26 = 0 ∧
    elQ (extended_state_space_equations hp rp gp cp o x) 27 = 0 ∧
    elQ (extended_state_space_equations hp rp gp cp o x) 28 = 0 :=
  ⟨rfl, rfl, rfl, rfl, rfl⟩

theorem solverCombo_elQ26 (step : List (ℚ × RhsEval)) (s : List ℚ) :
    elQ (solverCombo step s) 26 = elQ s 26 := by
  unfold solverCombo
  rw [elQ_range_map _ _ _ (by norm_num)]
  rw [List.sum_eq_zero, add_zero]
  intro y hy
  simp only [List.mem_map] at hy
  obtain ⟨c, _, rfl⟩ := hy
  rw [(rhs_frozen_slots c.2.hp c.2.rp c.2.gp c.2.cp c.2.o c.2.x).2.2.1,
    mul_zero]

theorem traj_elQ26 (steps : List (List (ℚ × RhsEval))) :
    ∀ s0 : List ℚ, elQ s0 26 = 0 → elQ (traj s0 steps) 26 = 0 := by
  induction steps with
  | nil => exact fun s0 h => h
  | cons st rest ih =>
    intro s0 h
    have hstep : traj s0 (st :: rest) = traj (solverCombo st s0) rest := rfl
    rw [hstep]
    exact ih _ (by rw [solverCombo_elQ26]; exact h)

theorem initialize_state_elQ26 (ic : InitCond) :
    elQ (initialize_state ic) 26 = 0 := rfl

/-- C10: the packed derivative vector is identically zero at indices 23, 24
(legacy chemoreceptor slots) and 26, 27, 28 (baroreflex heart-rate,
resistance and unstressed-volume offsets); consequently any integrator that
adds weighted combinations of right-hand-side evaluations keeps
`state[26]` at its initial value `0`, and the heart rate reported by
`compute_variables` (`HR_n - y[26]`) always equals `HR_n`. -/
theorem C10_frozen_offsets_fix_heart_rate (hp : HemoParams) (rp : RespParams)
    (gp : GasParams) (cp : ChemoParams) (o : OdeOracles) (x : List ℚ)
    (ic : InitCond) (steps : List (List (ℚ × RhsEval))) :
    (elQ (extended_state_space_equations hp rp gp cp o x) 23 = 0 ∧
     elQ (extended_state_space_equations hp rp gp cp o x) 24 = 0 ∧
     elQ (extended_state_space_equations hp rp gp cp o x) 26 = 0 ∧
     elQ (extended_state_space_equations hp rp gp cp o x) 27 = 0 ∧
     elQ (extended_state_space_equations hp rp gp cp o x) 28 = 0) ∧
    elQ (traj (initialize_state ic) steps) 26 = 0 ∧
    computeHR hp.HR_n (traj (initialize_state ic) steps) = hp.HR_n := by
  refine ⟨rhs_frozen_slots hp rp gp cp o x,
    traj_elQ26 steps _ (initialize_state_elQ26 ic), ?_⟩
  unfold computeHR
  rw [traj_elQ26 steps _ (initialize_state_elQ26 ic), sub_zero]

theorem processEvent_limited_skip (spl : String → ℚ → ℚ) (pct : ℚ → String → ℚ)
    (t : ℚ) (ctx : Ctx) (I : ℤ) (cs : List PChange) (h : t ≤ (I : ℚ)) :
    processEvent spl pct t ctx (limitedOnceEvent I cs) =
      ⟨some true, ctx, limitedOnceEvent I cs, false⟩ := by
  simp [processEvent, limitedOnceEvent, h]

theorem processEvent_limited_fire (spl : String → ℚ → ℚ) (pct : ℚ → String → ℚ)
    (t : ℚ) (ctx : Ctx) (I : ℤ) (cs : List PChange) (h : ¬ t ≤ (I : ℚ)) :
    processEvent spl pct t ctx (limitedOnceEvent I cs) =
      ⟨some false, (applyChanges spl pct ctx cs).1,
        ⟨"common", "limited", I, some t, 0, cs⟩, true⟩ := by
  simp [processEvent, limitedOnceEvent, h]

theorem runSim_nil_queue (spl : String → ℚ → ℚ) (pct : ℚ → String → ℚ)
    (ts : List ℚ) : ∀ (c : Ctx) (n : ℕ),
    ts.foldl (simEventStep spl pct) (c, [], n) = (c, [], n) := by
  induction ts with
  | nil => intro c n; rfl
  | cons t rest ih =>
    intro c n
    rw [List.foldl_cons]
    have hs : simEventStep spl pct (c, [], n) t = (c, [], n) := rfl
    rw [hs]
    exact ih c n

/-- C6: a `common` event with `timeCategorical = "limited"` and
`eventCount = 1` is applied exactly once over any run — at the first step
time exceeding the configured interval (measured from the absent last
emission, i.e. `0`) — the parameter changes take effect at that step, the
event returns `False` on that same call, and `start_simulation` removes it
from the queue; if no step time exceeds the interval it is never applied
and survives untouched. -/
theorem C6_limited_event_applied_once (spl : String → ℚ → ℚ)
    (pct : ℚ → String → ℚ) (I : ℤ) (cs : List PChange) (ctx0 : Ctx)
    (ts : List ℚ) :
    runSim spl pct ts ctx0 [limitedOnceEvent I cs] =
      if ts.any (fun t => decide ((I : ℚ) < t)) then
        ((applyChanges spl pct ctx0 cs).1, [], 1)
      else (ctx0, [limitedOnceEvent I cs], 0) := by
  induction ts with
  | nil => rfl
  | cons t rest ih =>
    unfold runSim at ih ⊢
    rw [List.foldl_cons]
    by_cases h : t ≤ (I : ℚ)
    · have hstep : simEventStep spl pct (ctx0, [limitedOnceEvent I cs], 0) t
          = (ctx0, [limitedOnceEvent I cs], 0) := by
        simp [simEventStep, stepEvents,
          processEvent_limited_skip spl pct t ctx0 I cs h]
      rw [hstep, ih]
      have hany : decide ((I : ℚ) < t) = false := by simp [not_lt.mpr h]
      simp [List.any_cons, hany]
    · have hstep : simEventStep spl pct (ctx0, [limitedOnceEvent I cs], 0) t
          = ((applyChanges spl pct ctx0 cs).1, [], 1) := by
        simp [simEventStep, stepEvents,
          processEvent_limited_fire spl pct t ctx0 I cs h]
      rw [hstep, runSim_nil_queue]
      have hany : decide ((I : ℚ) < t) = true := by simp [not_le.mp h]
      simp [List.any_cons, hany]

/-- C9 counterexample: processing `evC9` (whose first change names the
unknown parameter `"zzz"`) returns `False` — so `start_simulation` removes
the whole event — and the later change to the known parameter `"b"` is NOT
applied (`"b"` keeps its old value `2` instead of the claimed `9`): the
unknown name aborts the remaining changes of the event rather than being
dropped alone. -/
theorem C9_counterexample :
    (processEvent splId pctId 0 ctxAB evC9).outcome = some false ∧
    plookup (processEvent splId pctId 0 ctxAB evC9).ctx.params "b" = some 2 ∧
    plookup (processEvent splId pctId 0 ctxAB evC9).ctx.params "b" ≠ some 9 := by
  refine ⟨rfl, rfl, ?_⟩
  rw [show plookup (processEvent splId pctId 0 ctxAB evC9).ctx.params "b"
      = some 2 from rfl]
  simp only [ne_eq, Option.some.injEq]
  norm_num

theorem applyChanges_append (spl : String → ℚ → ℚ) (pct : ℚ → String → ℚ)
    (pre rest : List PChange) : ∀ ctx : Ctx,
    (applyChanges spl pct ctx pre).2 = true →
      applyChanges spl pct ctx (pre ++ rest) =
        applyChanges spl pct (applyChanges spl pct ctx pre).1 rest := by
  induction pre with
  | nil => intro ctx _; rfl
  | cons c cs ih =>
    intro ctx h
    rw [List.cons_append]
    simp only [applyChanges] at h ⊢
    cases hc : applyChange spl pct ctx c with
    | some ctx2 =>
      rw [hc] at h
      simp only [hc]
      exact ih ctx2 h
    | none =>
      rw [hc] at h
      simp at h

/-- C9 as the code actually behaves: when a change loop reaches a parameter
name that is neither in `master_parameters` nor the special-cased
state-vector location, the loop breaks — the changes before it stay
applied, the ones after it are dropped — the error is reported and
`processEvent` returns `False` (so the event is removed); no exception is
raised and the runtime continues. -/
theorem C9_unknown_param_stops_event (spl : String → ℚ → ℚ)
    (pct : ℚ → String → ℚ) (ctx : Ctx) (pre post : List PChange) (c : PChange)
    (t : ℚ)
    (hpre : (applyChanges spl pct ctx pre).2 = true)
    (hunk : plookup (applyChanges spl pct ctx pre).1.params c.name = none)
    (hspec : c.name ≠ "venous_compartiment_3") :
    processEvent spl pct t ctx ⟨"common", "once", 0, none, 1, pre ++ c :: post⟩ =
      ⟨some false, (applyChanges spl pct ctx pre).1,
        ⟨"common", "once", 0, none, 1, pre ++ c :: post⟩, true⟩ := by
  have hc : applyChange spl pct (applyChanges spl pct ctx pre).1 c = none := by
    unfold applyChange
    rw [hunk]
    simp [hspec]
  have hall : applyChanges spl pct ctx (pre ++ c :: post) =
      ((applyChanges spl pct ctx pre).1, false) := by
    rw [applyChanges_append spl pct pre (c :: post) ctx hpre]
    simp only [applyChanges]
    rw [hc]
  simp [processEvent, hall]

/-- Witness for C9 at a concrete event whose middle change is unknown. -/
theorem C9_unknown_param_stops_event_witness :
    processEvent splId pctId 0 ctxAB
        ⟨"common", "once", 0, none, 1,
          [⟨"a", "absolute", "set", 5⟩] ++ ⟨"zzz", "absolute", "set", 1⟩ ::
            [⟨"b", "absolute", "set", 9⟩]⟩ =
      ⟨some false,
        (applyChanges splId pctId ctxAB [⟨"a", "absolute", "set", 5⟩]).1,
        ⟨"common", "once", 0, none, 1,
          [⟨"a", "absolute", "set", 5⟩] ++ ⟨"zzz", "absolute", "set", 1⟩ ::
            [⟨"b", "absolute", "set", 9⟩]⟩, true⟩ :=
  C9_unknown_param_stops_event splId pctId ctxAB
    [⟨"a", "absolute", "set", 5⟩] [⟨"b", "absolute", "set", 9⟩]
    ⟨"zzz", "absolute", "set", 1⟩ 0 rfl rfl (by decide)

/-- C7 counterexample: when the solver oracle fails, the loop body of
`start_simulation` is that failure — it is not caught, not logged, and the
loop does not proceed with the old state; the exception propagates out
(there is no `try`/`except` around `solve_ivp`, lines 885-894). -/
theorem C7_counterexample :
    simLoopBody splId pctId (fun _ _ => Except.error "LSODA step failure") st0
      = Except.error "LSODA step failure" := rfl

/-- C7 as the code actually behaves: any solver failure propagates out of
the loop body unchanged. -/
theorem C7_solver_error_propagates (spl : String → ℚ → ℚ)
    (pct : ℚ → String → ℚ) (solver : ℚ → List ℚ → Except String (List ℚ))
    (st : SimState) (msg : String)
    (h : solver st.t st.state = Except.error msg) :
    simLoopBody spl pct solver st = Except.error msg := by
  unfold simLoopBody
  rw [h]

/-- Witness for C7 with a concrete failing solver. -/
theorem C7_solver_error_propagates_witness :
    simLoopBody splId pctId (fun _ _ => Except.error "boom") st0
      = Except.error "boom" :=
  C7_solver_error_propagates splId pctId (fun _ _ => Except.error "boom")
    st0 "boom" rfl

theorem pushSample_length_full (w : ℕ) (hw : 0 < w) (buf : List ℚ) (x : ℚ)
    (h : buf.length = w) : (pushSample w buf x).length = w := by
  unfold pushSample
  rw [if_neg (by omega)]
  simp only [List.length_append, List.length_drop, List.length_cons,
    List.length_nil, h]
  omega

theorem bufAfter_length (w : ℕ) (hw : 0 < w) (samples : List ℚ) :
    (bufAfter w samples).length = w := by
  unfold bufAfter
  suffices hgen : ∀ buf : List ℚ, buf.length = w →
      (samples.foldl (pushSample w) buf).length = w from
    hgen _ (by simp [initPStore])
  induction samples with
  | nil => exact fun buf h => h
  | cons s rest ih =>
    intro buf h
    rw [List.foldl_cons]
    exact ih _ (pushSample_length_full w hw buf s h)

/-- C8 counterexample: the rolling buffer is created already full
(`deque([0.0] * window_size, ...)`), so after the first collected sample
(shown here with `window_size = 1500`, i.e. `dt = 0.02`) the buffer still
holds `window_size` entries — not the one sample collected so far — and the
estimate is the filtered value (the filter oracle's output, here `55`), not
the arithmetic mean `100` of the collected samples: the claimed
mean-while-filling phase never occurs. -/
theorem C8_counterexample :
    (bufAfter 1500 [100]).length = 1500 ∧
    recentMAP 1500 (fun _ => 55) 90 (bufAfter 1500 [100]) = 55 ∧
    meanQ [100] = 100 := by
  have hlen := bufAfter_length 1500 (by norm_num) [100]
  refine ⟨hlen, ?_, ?_⟩
  · unfold recentMAP
    rw [if_pos hlen]
    unfold compute_filtered_map
    rw [if_neg (by rw [hlen]; norm_num)]
  · unfold meanQ
    norm_num

/-- C8 as the code actually behaves: along any run the buffer keeps exactly
`window_size` entries, so the estimate of lines 917-924 always takes the
filtered branch; the mean fallback computes the plain mean of the buffer
contents and is reachable only for a buffer shorter than `window_size`,
which the prefilled buffer never is. -/
theorem C8_map_estimate_actual (w : ℕ) (hw : 0 < w) (filt : List ℚ → ℚ)
    (abp : ℚ) (samples : List ℚ) :
    (bufAfter w samples).length = w ∧
    recentMAP w filt abp (bufAfter w samples) =
      compute_filtered_map filt (bufAfter w samples) ∧
    (∀ buf : List ℚ, buf.length < w → 0 < buf.length →
      recentMAP w filt abp buf = meanQ buf) := by
  refine ⟨bufAfter_length w hw samples, ?_, ?_⟩
  · unfold recentMAP
    rw [if_pos (bufAfter_length w hw samples)]
  · intro buf hlt hpos
    unfold recentMAP
    rw [if_neg (by omega), if_pos hpos]

/-- Witness for C8 at window size 3. -/
theorem C8_map_estimate_actual_witness :
    (bufAfter 3 [1, 2]).length = 3 ∧
    recentMAP 3 (fun _ => 7) 90 (bufAfter 3 [1, 2]) =
      compute_filtered_map (fun _ => 7) (bufAfter 3 [1, 2]) ∧
    recentMAP 3 (fun _ => 7) 90 [5] = meanQ [5] := by
  have h := C8_map_estimate_actual 3 (by norm_num) (fun _ => 7) 90 [1, 2]
  exact ⟨h.1, h.2.1, h.2.2 [5] (by norm_num) (by norm_num)⟩

theorem round_mono_real (a b : ℝ) (hab : a ≤ b) : round a ≤ round b := by
  rw [round_eq, round_eq]
  exact Int.floor_mono (by linarith)

/-- C2 counterexample: with `K_O2 = 1/5`, `k_O2 = 23/500`, `Hgb = 15`, the
SpO2 value at `p_a_O2 = 10000` is strictly below the value at `700`: the
clamped content term is equal at both inputs, but the dissolved-oxygen
correction `p_a_O2 * 0.003 / 100` uses the unclamped pressure, and over
this gap it moves the rounded value down — SpO2 is not flat above the
700 mmHg clamp. -/
theorem C2_counterexample :
    SaO2calc (1/5) (23/500) 15 10000 < SaO2calc (1/5) (23/500) 15 700 := by
  unfold SaO2calc
  have hc : CaO2 (1/5) (23/500) 10000 = CaO2 (1/5) (23/500) 700 := by
    unfold CaO2
    rw [min_eq_right (by norm_num : (700:ℝ) ≤ 10000), min_self]
  rw [hc]
  have key : ((CaO2 (1/5) (23/500) 700 - 10000 * 0.003 / 100) / (15 * 1.34)) * 100
      = ((CaO2 (1/5) (23/500) 700 - 700 * 0.003 / 100) / (15 * 1.34)) * 100
        - 93 / 67 := by
    ring
  rw [key]
  have step1 : round (((CaO2 (1/5) (23/500) 700 - 700 * 0.003 / 100) / (15 * 1.34))
        * 100 - 93 / 67)
      ≤ round (((CaO2 (1/5) (23/500) 700 - 700 * 0.003 / 100) / (15 * 1.34))
        * 100 - (1 : ℤ)) :=
    round_mono_real _ _ (by push_cast; linarith)
  have step2 : round (((CaO2 (1/5) (23/500) 700 - 700 * 0.003 / 100) / (15 * 1.34))
        * 100 - (1 : ℤ))
      = round (((CaO2 (1/5) (23/500) 700 - 700 * 0.003 / 100) / (15 * 1.34))
        * 100) - 1 :=
    round_sub_int _ 1
  omega

/-- C2 as the code actually behaves: the clamped oxygen-content term is
monotonically non-decreasing in arterial pO2 and exactly flat above the
700 mmHg clamp, while the rounded SpO2 is non-increasing above the clamp
(because the dissolved-oxygen term subtracts the unclamped pressure). -/
theorem C2_saturation_monotone_actual (K k Hgb p1 p2 : ℝ)
    (hK : 0 ≤ K) (hk : 0 ≤ k) (hH : 0 < Hgb) (hp1 : 0 ≤ p1) (h12 : p1 ≤ p2) :
    CaO2 K k p1 ≤ CaO2 K k p2 ∧
    (700 ≤ p1 →
      CaO2 K k p1 = CaO2 K k 700 ∧
      SaO2calc K k Hgb p2 ≤ SaO2calc K k Hgb p1) := by
  constructor
  · unfold CaO2
    have hm : min p1 700 ≤ min p2 700 := min_le_min h12 le_rfl
    have hm0 : 0 ≤ min p1 700 := le_min hp1 (by norm_num)
    have hk1 : k * min p1 700 ≤ k * min p2 700 :=
      mul_le_mul_of_nonneg_left hm hk
    have hexp : Real.exp (-k * min p2 700) ≤ Real.exp (-k * min p1 700) :=
      Real.exp_le_exp.mpr (by linarith)
    have hone : Real.exp (-k * min p1 700) ≤ 1 := by
      rw [Real.exp_le_one_iff]
      have := mul_nonneg hk hm0
      linarith
    have hA : (0:ℝ) ≤ 1 - Real.exp (-k * min p1 700) := by linarith
    have hAB : 1 - Real.exp (-k * min p1 700) ≤ 1 - Real.exp (-k * min p2 700) := by
      linarith
    have hsq := pow_le_pow_left₀ hA hAB 2
    have hKs := mul_le_mul_of_nonneg_left hsq hK
    linarith
  · intro h700
    have hp2 : (700:ℝ) ≤ p2 := le_trans h700 h12
    have hCa1 : CaO2 K k p1 = CaO2 K k 700 := by
      unfold CaO2
      rw [min_eq_right h700, min_self]
    have hCa2 : CaO2 K k p2 = CaO2 K k 700 := by
      unfold CaO2
      rw [min_eq_right hp2, min_self]
    refine ⟨hCa1, ?_⟩
    unfold SaO2calc
    rw [hCa1, hCa2]
    refine round_mono_real _ _ ?_
    have hpos : (0:ℝ) < Hgb * 1.34 := by nlinarith
    have hnum : CaO2 K k 700 - p2 * 0.003 / 100
        ≤ CaO2 K k 700 - p1 * 0.003 / 100 := by nlinarith
    gcongr

/-- Witness for C2 at concrete parameters, `p1 = 700`, `p2 = 800`. -/
theorem C2_saturation_monotone_actual_witness :
    CaO2 (1/5) (23/500) 700 ≤ CaO2 (1/5) (23/500) 800 ∧
    (CaO2 (1/5) (23/500) 700 = CaO2 (1/5) (23/500) 700 ∧
      SaO2calc (1/5) (23/500) 15 800 ≤ SaO2calc (1/5) (23/500) 15 700) := by
  have h := C2_saturation_monotone_actual (1/5) (23/500) 15 700 800
    (by norm_num) (by norm_num) (by norm_num) (by norm_num) (by norm_num)
  exact ⟨h.1, h.2 (by norm_num)⟩

end DigitalTwin
